import Mathlib

/-!
Verification of the timints library (src/timints/__init__.py): a shallow
embedding of the Timer class and its module-level helpers, with theorems
checking the natural-language specification against the code.

Modelling choices:
* Python floats (clock readings, elapsed seconds) are modelled as `ℚ`.
* The monotonic clock is made explicit: every operation that reads
  `time.perf_counter()` takes the current reading as an argument.
* A Python method that may raise is embedded as a function returning the
  (possibly updated) object together with an `Except` result; a `raise`
  in the source happens before any field assignment, so on the error path
  the returned object is the unchanged input object, exactly as in Python.
* `print(...)` output is recorded as a list of emitted lines, each tagged
  with the stream it was written to (`print` with no file argument writes
  to standard output).
-/

set_option allowUnsafeReducibility true
attribute [local semireducible] Rat.add Rat.sub Rat.mul Rat.div Rat.inv Rat.neg Rat.ofScientific

/-- Output streams a line can be written to. -/
inductive Channel where
  | stdout
  | stderr
deriving DecidableEq, Repr

/-- One line written by the program, with the stream it went to. -/
structure Emitted where
  channel : Channel
  line : String
deriving DecidableEq, Repr

/-- Python exceptions raised by the library: `RuntimeError(msg)`. -/
inductive PyError where
  | runtimeError (msg : String)
deriving DecidableEq, Repr

/-- Python `str` of an optional string as used in an f-string:
`None` prints as `"None"`, a string prints as itself. -/
def pyStrOpt : Option String → String
  | none => "None"
  | some s => s

/-- Decimal digits of the fractional part `num/den` (with `num < den`),
most significant first, stopping when the expansion terminates or the
fuel runs out.  Mirrors the digit production of Python float repr for
values whose decimal expansion terminates (all values reached in the
theorems below do). -/
def fracDigits (fuel : ℕ) (num den : ℕ) : List ℕ :=
  match fuel with
  | 0 => []
  | f + 1 =>
    if num = 0 then []
    else (num * 10 / den) :: fracDigits f (num * 10 % den) den

/-- The character for a decimal digit. -/
def digitChar (d : ℕ) : Char := Char.ofNat (48 + d)

/-- Python repr of a float holding the value `q`, for values with a
terminating decimal expansion: sign, integer part, a dot, and the
fractional digits, with at least one digit after the dot (`1.0`, `3.14`,
`0.5`).  This is how an f-string renders a float value. -/
def decimalString (q : ℚ) : String :=
  let sign := if q < 0 then "-" else ""
  let a := |q|
  let ip : ℕ := (⌊a⌋).toNat
  let fr : ℚ := a - (ip : ℚ)
  let ds := fracDigits 40 fr.num.toNat fr.den
  let frStr := if ds.isEmpty then "0" else String.mk (ds.map digitChar)
  sign ++ toString ip ++ "." ++ frStr

/-- Round-half-even to the nearest integer, as Python round does on a
value representable exactly. -/
def rint (q : ℚ) : ℤ :=
  let f := ⌊q⌋
  let frac := q - (f : ℚ)
  if frac < 1/2 then f
  else if 1/2 < frac then f + 1
  else if f % 2 = 0 then f else f + 1

/-- Python `round(x, p)`: round-half-even to `p` decimal digits. -/
def pyRound (x : ℚ) (p : ℤ) : ℚ :=
  ((rint (x * (10 : ℚ) ^ p) : ℚ)) / (10 : ℚ) ^ p

/-- Python `divmod(a, b)` on floats: floored quotient and remainder. -/
def pyDivmod (a b : ℚ) : ℚ × ℚ :=
  ((⌊a / b⌋ : ℚ), a - b * (⌊a / b⌋ : ℚ))

/-- The Timer object of src/timints/__init__.py: the fields set by
`Timer.__init__` (`tstart`, `name`, `precision`, `verbose`). -/
structure Timer where
  tstart : Option ℚ
  name : Option String
  precision : Option ℤ
  verbose : Bool
deriving DecidableEq, Repr

/-- `Timer.__init__(name=None, precision=2)`: sets `tstart = None`,
stores `name` and `precision`, and derives `verbose = name is not None`. -/
def Timer.create (name : Option String := none) (precision : Option ℤ := some 2) : Timer :=
  { tstart := none, name := name, precision := precision, verbose := name.isSome }

/-- `Timer.tic` at clock reading `now`: raises RuntimeError if `tstart`
is not None, otherwise sets `tstart` to the current clock reading.
Returns the object (unchanged on the error path) and the outcome. -/
def Timer.tic (t : Timer) (now : ℚ) : Timer × Except PyError Unit :=
  match t.tstart with
  | some _ =>
    (t, .error (.runtimeError
      ("Timer " ++ pyStrOpt t.name ++ " is still in tic, toc first before tic-ing again.")))
  | none => ({ t with tstart := some now }, .ok ())

/-- The verbose formatting block of `Timer.toc` (source lines 107 to 113),
applied to the already-rounded `diff_seconds`: start from the plain
seconds string, split off minutes when `diff_seconds >= 60`, further
split off hours when `diff_minutes >= 60`. -/
def renderElapsed (d : ℚ) : String :=
  if 60 ≤ d then
    if 60 ≤ (pyDivmod d 60).1 then
      decimalString (pyDivmod (pyDivmod d 60).1 60).1 ++ "h " ++
        decimalString (pyDivmod (pyDivmod d 60).1 60).2 ++ "m " ++
        decimalString (pyDivmod d 60).2 ++ "s"
    else
      decimalString (pyDivmod d 60).1 ++ "m " ++ decimalString (pyDivmod d 60).2 ++ "s"
  else decimalString d ++ "s"

deriving instance DecidableEq for Except

/-- The outcome of a `Timer.toc` call: the object after the call, the
result of the call (a float or None on success), and the lines printed. -/
structure TocOut where
  timer : Timer
  result : Except PyError (Option ℚ)
  output : List Emitted
deriving DecidableEq, Repr

/-- `Timer.toc` at clock reading `now`, faithful to the source:
raises RuntimeError if `tstart` is None; otherwise computes
`diff_seconds = now - tstart`; if not verbose, returns `diff_seconds`
WITHOUT resetting `tstart` (the source returns at line 102, before the
reset at line 115); if verbose, rounds to `precision` digits when
`precision` is not None, prints the report line via `print` (standard
output), resets `tstart` to None, and returns None. -/
def Timer.toc (t : Timer) (now : ℚ) : TocOut :=
  match t.tstart with
  | none =>
    ⟨t, .error (.runtimeError
      ("Timer " ++ pyStrOpt t.name ++ " is still in toc, tic first before toc-ing again.")), []⟩
  | some t0 =>
    let diff := now - t0
    if t.verbose = false then
      ⟨t, .ok (some diff), []⟩
    else
      let d := match t.precision with
        | some p => pyRound diff p
        | none => diff
      let line := "[" ++ pyStrOpt t.name ++ "] Elapsed: " ++ renderElapsed d
      ⟨{ t with tstart := none }, .ok none, [⟨Channel.stdout, line⟩]⟩

/-- The rendering rule as the specification and claim C6 state it:
the seconds string when elapsed is below 60; whole minutes and remainder
seconds when 60 <= elapsed < 3600; whole hours, remainder minutes and
remainder seconds when elapsed >= 3600.  Stated over the already-rounded
value, for comparison with `renderElapsed` from the source. -/
def specRender (d : ℚ) : String :=
  if d < 60 then decimalString d ++ "s"
  else if d < 3600 then
    decimalString ((⌊d / 60⌋ : ℚ)) ++ "m " ++
      decimalString (d - 60 * (⌊d / 60⌋ : ℚ)) ++ "s"
  else
    decimalString ((⌊(⌊d / 60⌋ : ℚ) / 60⌋ : ℚ)) ++ "h " ++
      decimalString ((⌊d / 60⌋ : ℚ) - 60 * (⌊(⌊d / 60⌋ : ℚ) / 60⌋ : ℚ)) ++ "m " ++
      decimalString (d - 60 * (⌊d / 60⌋ : ℚ)) ++ "s"

/-- Call events observed on a timer. -/
inductive Ev where
  | ticCall
  | tocCall
deriving DecidableEq, Repr

/-- An error escaping a scoped block or a wrapped call: either a
RuntimeError raised by the timer, or the exception of the block or of
the wrapped function itself. -/
inductive ScopeErr where
  | timerErr (e : PyError)
  | bodyErr (msg : String)
deriving DecidableEq, Repr

/-- Outcome of running a scoped block on a timer. -/
structure ScopeOut where
  timer : Timer
  result : Except ScopeErr Unit
  output : List Emitted
  calls : List Ev
deriving DecidableEq, Repr

/-- Python `with t: body` at entry clock `t0` and exit clock `t1`.
From the source: `__enter__` calls `tic` (so if `tic` raises, the body
does not run and `__exit__` is not called); the body then runs, its
outcome given abstractly as `body`; `__exit__` runs on every exit path
and calls `toc`; since `__exit__` returns False, a body exception is
re-raised after `toc` returns, while an exception raised by `toc` itself
propagates instead. -/
def withTimer (t : Timer) (t0 t1 : ℚ) (body : Except String Unit) : ScopeOut :=
  match t.tic t0 with
  | (te, .error e) => ⟨te, .error (.timerErr e), [], [.ticCall]⟩
  | (ta, .ok _) =>
    let o := ta.toc t1
    match o.result with
    | .error e => ⟨o.timer, .error (.timerErr e), o.output, [.ticCall, .tocCall]⟩
    | .ok _ =>
      match body with
      | .error msg => ⟨o.timer, .error (.bodyErr msg), o.output, [.ticCall, .tocCall]⟩
      | .ok _ => ⟨o.timer, .ok (), o.output, [.ticCall, .tocCall]⟩

/-- Outcome of one invocation of the callable built by `Timer.tictoc`. -/
structure WrapOut (β : Type) where
  timer : Timer
  result : Except ScopeErr β
  output : List Emitted
  calls : List Ev

/-- One invocation of `inner`, the wrapper that `Timer.tictoc` builds
around `func` (source lines 120 to 126): `self.tic()`, then
`result = func(*args, **kwargs)`, then `self.toc()`, then return
`result`.  The wrapped Python callable is given as a function that
either returns a value or raises; the two clock arguments are the
readings `tic` and `toc` would observe.  If `tic` raises, `func` is not
called; if `func` raises, the exception propagates out of `inner` and
`toc` is never called. -/
def Timer.tictocCall {α β : Type} (t : Timer) (f : α → Except String β) (x : α)
    (t0 t1 : ℚ) : WrapOut β :=
  match t.tic t0 with
  | (te, .error e) => ⟨te, .error (.timerErr e), [], [.ticCall]⟩
  | (ta, .ok _) =>
    match f x with
    | .error msg => ⟨ta, .error (.bodyErr msg), [], [.ticCall]⟩
    | .ok r =>
      let o := ta.toc t1
      match o.result with
      | .error e => ⟨o.timer, .error (.timerErr e), o.output, [.ticCall, .tocCall]⟩
      | .ok _ => ⟨o.timer, .ok r, o.output, [.ticCall, .tocCall]⟩

/-- The shared default instance: `TIMER = Timer(__name__)`, where the
package name is `"timints"`; so the default timer is verbose with the
default precision 2. -/
def TIMER : Timer := Timer.create (some "timints") (some 2)

/-- The names bound at module level in src/timints/__init__.py
(lines 10 and 136 to 142): the class, the default instance, and the
three free functions delegating to it. -/
def moduleLevelNames : List String := ["Timer", "TIMER", "tic", "toc", "tictoc"]

example : decimalString (314/100) = "3.14" := by decide
example : decimalString 1 = "1.0" := by decide
example : pyRound (314159/100000) 2 = 314/100 := by decide
example : renderElapsed (314/100) = "3.14s" := by decide
example : renderElapsed 65 = "1.0m 5.0s" := by decide
example : renderElapsed 3661 = "1.0h 1.0m 1.0s" := by decide

theorem sixty_le_floor_div_iff (d : ℚ) : 60 ≤ ((⌊d / 60⌋ : ℤ) : ℚ) ↔ 3600 ≤ d := by
  rw [show ((60:ℚ)) = ((60:ℤ):ℚ) by norm_num, Int.cast_le, Int.le_floor]
  push_cast
  rw [le_div_iff₀ (by norm_num : (0:ℚ) < 60)]
  norm_num

theorem renderElapsed_eq_specRender (d : ℚ) : renderElapsed d = specRender d := by
  unfold renderElapsed specRender
  by_cases h60 : d < 60
  · rw [if_neg (not_le.mpr h60), if_pos h60]
  · by_cases h36 : d < 3600
    · have hm : ¬ 60 ≤ (pyDivmod d 60).1 := by
        simp only [pyDivmod]
        rw [sixty_le_floor_div_iff]
        exact not_le.mpr h36
      rw [if_pos (not_lt.mp h60), if_neg hm, if_neg h60, if_pos h36]
      simp [pyDivmod]
    · have hm : 60 ≤ (pyDivmod d 60).1 := by
        simp only [pyDivmod]
        rw [sixty_le_floor_div_iff]
        exact not_lt.mp h36
      rw [if_pos (not_lt.mp h60), if_pos hm, if_neg h60, if_neg h36]
      simp [pyDivmod]

/-- Claim C1 (refuted by the code, source defect): on a NON-verbose timer
a successful `toc` does not reset `tstart` (the source returns at line
102, before the reset at line 115), so after a balanced tic/toc pair the
timer is still running and the next `tic` raises.  Concretely: fresh
`Timer()`, `tic` at clock 0, `toc` at clock 5 returns 5.0, `tstart` is
still 0, and `tic` at clock 7 raises RuntimeError. -/
theorem C1_nonverbose_stop_leaves_running :
    (((Timer.create none (some 2)).tic 0).1.toc 5).result = .ok (some 5) ∧
    (((Timer.create none (some 2)).tic 0).1.toc 5).timer.tstart = some 0 ∧
    ((((Timer.create none (some 2)).tic 0).1.toc 5).timer.tic 7).2 =
      .error (.runtimeError "Timer None is still in tic, toc first before tic-ing again.") := by
  refine ⟨?_, ?_, ?_⟩ <;> decide

/-- Claim C2 (refuted by the code, source defect): the module level of
src/timints/__init__.py binds only `Timer`, `TIMER`, `tic`, `toc` and
`tictoc`; no stop-then-start restart function is defined, although
src/demo.py (line 46) calls `toctic()` and the specification lists a
module-level `restart`. -/
theorem C2_no_module_restart :
    ¬ ("toctic" ∈ moduleLevelNames) ∧ ¬ ("restart" ∈ moduleLevelNames) := by
  decide

/-- Claim C3 (refuted by the code, source defect): the verbose report is
written with `print(...)` and no file argument, that is to standard
output, while the docstrings of the class (lines 19, 28, 84) and the
specification say the diagnostic/error stream.  Concretely: a verbose
timer with label x, `tic` at clock 0 and `toc` at clock 3 writes its one
line to stdout, which is not stderr. -/
theorem C3_report_on_stdout :
    (((Timer.create (some "x") (some 2)).tic 0).1.toc 3).output =
      [⟨Channel.stdout, "[x] Elapsed: 3.0s"⟩] ∧
    Channel.stdout ≠ Channel.stderr := by
  refine ⟨?_, ?_⟩ <;> decide

/-- Claim C4: calling `tic` on a running timer raises a RuntimeError
whose message names the timer label, leaves the state unchanged (the
returned object is the input object, still running), and a subsequent
`toc` succeeds and measures from the original start instant `t0` (the
non-verbose result is `now2 - t0`; the verbose result is None). -/
theorem C4_start_while_running (t : Timer) (t0 now now2 : ℚ) (h : t.tstart = some t0) :
    t.tic now = (t, .error (.runtimeError
      ("Timer " ++ pyStrOpt t.name ++ " is still in tic, toc first before tic-ing again."))) ∧
    ((t.tic now).1.toc now2).result =
      (if t.verbose then .ok none else .ok (some (now2 - t0))) := by
  have h1 : t.tic now = (t, .error (.runtimeError
      ("Timer " ++ pyStrOpt t.name ++ " is still in tic, toc first before tic-ing again."))) := by
    unfold Timer.tic
    rw [h]
  refine ⟨h1, ?_⟩
  rw [h1]
  unfold Timer.toc
  rw [h]
  cases hv : t.verbose <;> cases hp : t.precision <;> simp [hv, hp]

/-- Witness for C4 at a concrete running verbose timer. -/
theorem C4_start_while_running_witness :
    (⟨some 0, some "x", some 2, true⟩ : Timer).tstart = some (0:ℚ) ∧
    ((⟨some 0, some "x", some 2, true⟩ : Timer).tic 1 =
      ((⟨some 0, some "x", some 2, true⟩ : Timer), .error (.runtimeError
        ("Timer " ++ pyStrOpt (some "x") ++ " is still in tic, toc first before tic-ing again."))) ∧
     (((⟨some 0, some "x", some 2, true⟩ : Timer).tic 1).1.toc 2).result =
       (if (⟨some 0, some "x", some 2, true⟩ : Timer).verbose then .ok none
        else .ok (some (2 - 0)))) :=
  ⟨rfl, C4_start_while_running ⟨some 0, some "x", some 2, true⟩ 0 1 2 rfl⟩

/-- Claim C5: calling `toc` on an idle timer raises a RuntimeError whose
message names the timer label, prints nothing, and leaves the timer
object unchanged (still idle). -/
theorem C5_stop_while_idle (t : Timer) (now : ℚ) (h : t.tstart = none) :
    t.toc now = ⟨t, .error (.runtimeError
      ("Timer " ++ pyStrOpt t.name ++ " is still in toc, tic first before toc-ing again.")), []⟩ := by
  unfold Timer.toc
  rw [h]

/-- Witness for C5 at a concrete idle verbose timer. -/
theorem C5_stop_while_idle_witness :
    (⟨none, some "y", some 2, true⟩ : Timer).tstart = none ∧
    (⟨none, some "y", some 2, true⟩ : Timer).toc 3 =
      ⟨⟨none, some "y", some 2, true⟩, .error (.runtimeError
        ("Timer " ++ pyStrOpt (some "y") ++ " is still in toc, tic first before toc-ing again.")), []⟩ :=
  ⟨rfl, C5_stop_while_idle ⟨none, some "y", some 2, true⟩ 3 rfl⟩

/-- Claim C6: on a verbose timer, `toc` first rounds the elapsed seconds
to `precision` digits (no rounding when precision is None) and then
renders by the three-range rule of the specification (`specRender`),
emitting the single line `[label] Elapsed: ...`; at elapsed 3.14159 with
precision 2 the line is exactly `[label] Elapsed: 3.14s`. -/
theorem C6_verbose_report_format (lbl : String) (p : ℤ) (t0 now : ℚ) :
    (Timer.toc ⟨some t0, some lbl, some p, true⟩ now).output =
      [⟨Channel.stdout, "[" ++ lbl ++ "] Elapsed: " ++ specRender (pyRound (now - t0) p)⟩] ∧
    (Timer.toc ⟨some t0, some lbl, none, true⟩ now).output =
      [⟨Channel.stdout, "[" ++ lbl ++ "] Elapsed: " ++ specRender (now - t0)⟩] ∧
    (Timer.toc ⟨some 0, some "label", some 2, true⟩ (314159/100000)).output =
      [⟨Channel.stdout, "[label] Elapsed: 3.14s"⟩] := by
  refine ⟨?_, ?_, ?_⟩
  · simp [Timer.toc, pyStrOpt, renderElapsed_eq_specRender]
  · simp [Timer.toc, pyStrOpt, renderElapsed_eq_specRender]
  · decide

/-- Claim C7: a timer built with no label is non-verbose: after `tic`,
its `toc` returns the elapsed seconds and prints nothing; a timer built
with a label is verbose: after `tic`, its `toc` returns None and prints
exactly one line. -/
theorem C7_label_controls_verbosity (p : Option ℤ) (lbl : String) (t0 now : ℚ) :
    (((Timer.create none p).tic t0).1.toc now).result = .ok (some (now - t0)) ∧
    (((Timer.create none p).tic t0).1.toc now).output = [] ∧
    (((Timer.create (some lbl) p).tic t0).1.toc now).result = .ok none ∧
    (((Timer.create (some lbl) p).tic t0).1.toc now).output.length = 1 := by
  cases p <;> refine ⟨?_, ?_, ?_, ?_⟩ <;> simp [Timer.create, Timer.tic, Timer.toc]

/-- Claim C8: the scoped-block protocol.  Starting from an idle timer,
entering calls `tic` and leaving calls `toc` on every exit path, so the
observed call sequence is exactly one tic followed by one toc; the scope
never suppresses the body error: a body that raises propagates its own
error after `toc` ran, and a body that returns normally yields a normal
exit. -/
theorem C8_scope_protocol (t : Timer) (t0 t1 : ℚ) (body : Except String Unit)
    (h : t.tstart = none) :
    (withTimer t t0 t1 body).calls = [Ev.ticCall, Ev.tocCall] ∧
    (withTimer t t0 t1 body).result =
      (match body with
        | .error msg => .error (.bodyErr msg)
        | .ok _ => .ok ()) := by
  unfold withTimer Timer.tic
  rw [h]
  unfold Timer.toc
  cases hv : t.verbose <;> cases hp : t.precision <;> cases body <;> simp [hv, hp]

/-- Witness for C8 at a concrete idle timer and a raising body. -/
theorem C8_scope_protocol_witness :
    (⟨none, some "w", some 2, true⟩ : Timer).tstart = none ∧
    ((withTimer ⟨none, some "w", some 2, true⟩ 0 1 (.error "boom")).calls =
       [Ev.ticCall, Ev.tocCall] ∧
     (withTimer ⟨none, some "w", some 2, true⟩ 0 1 (.error "boom")).result =
       (match (.error "boom" : Except String Unit) with
         | .error msg => .error (.bodyErr msg)
         | .ok _ => .ok ())) :=
  ⟨rfl, C8_scope_protocol ⟨none, some "w", some 2, true⟩ 0 1 (.error "boom") rfl⟩

/-- Claim C9: one invocation of the callable built by `Timer.tictoc`
around a function `f`, starting from an idle timer: the call returns
exactly the result of `f` on the same input (the wrapped callable has
the same input and output types as `f` by construction), and the timer
observes exactly one tic followed by one toc. -/
theorem C9_wrap_times_each_call (α β : Type) (t : Timer) (f : α → Except String β)
    (x : α) (v : β) (t0 t1 : ℚ) (h : t.tstart = none) (hf : f x = .ok v) :
    (t.tictocCall f x t0 t1).result = .ok v ∧
    (t.tictocCall f x t0 t1).calls = [Ev.ticCall, Ev.tocCall] := by
  unfold Timer.tictocCall Timer.tic
  rw [h, hf]
  unfold Timer.toc
  cases hv : t.verbose <;> cases hp : t.precision <;> simp [hv, hp]

/-- Witness for C9 at a concrete idle timer and the successor function. -/
theorem C9_wrap_times_each_call_witness :
    (⟨none, some "z", some 2, true⟩ : Timer).tstart = none ∧
    (fun n : ℕ => (.ok (n + 1) : Except String ℕ)) 3 = .ok 4 ∧
    (((⟨none, some "z", some 2, true⟩ : Timer).tictocCall
        (fun n : ℕ => (.ok (n + 1) : Except String ℕ)) 3 0 1).result = .ok 4 ∧
     ((⟨none, some "z", some 2, true⟩ : Timer).tictocCall
        (fun n : ℕ => (.ok (n + 1) : Except String ℕ)) 3 0 1).calls =
       [Ev.ticCall, Ev.tocCall]) :=
  ⟨rfl, rfl, C9_wrap_times_each_call ℕ ℕ ⟨none, some "z", some 2, true⟩
    (fun n : ℕ => (.ok (n + 1) : Except String ℕ)) 3 4 0 1 rfl rfl⟩

/-- Claim C10: if the function wrapped by `Timer.tictoc` raises, `toc`
is never called (the call sequence is the single tic), the exception
propagates as the result of the invocation, the timer is left running
with the start instant of that invocation, and a subsequent `tic`
raises the already-running RuntimeError. -/
theorem C10_wrap_exception_skips_stop (α β : Type) (t : Timer) (f : α → Except String β)
    (x : α) (m : String) (t0 t1 t2 : ℚ) (h : t.tstart = none) (hf : f x = .error m) :
    (t.tictocCall f x t0 t1).result = .error (.bodyErr m) ∧
    (t.tictocCall f x t0 t1).calls = [Ev.ticCall] ∧
    (t.tictocCall f x t0 t1).timer.tstart = some t0 ∧
    ((t.tictocCall f x t0 t1).timer.tic t2).2 = .error (.runtimeError
      ("Timer " ++ pyStrOpt t.name ++ " is still in tic, toc first before tic-ing again.")) := by
  unfold Timer.tictocCall Timer.tic
  rw [h, hf]
  simp [Timer.tic]

/-- Witness for C10 at a concrete idle timer and an always-raising
function. -/
theorem C10_wrap_exception_skips_stop_witness :
    (⟨none, some "q", some 2, true⟩ : Timer).tstart = none ∧
    (fun _ : ℕ => (.error "boom" : Except String ℕ)) 3 = .error "boom" ∧
    (((⟨none, some "q", some 2, true⟩ : Timer).tictocCall
        (fun _ : ℕ => (.error "boom" : Except String ℕ)) 3 0 1).result =
       .error (.bodyErr "boom") ∧
     ((⟨none, some "q", some 2, true⟩ : Timer).tictocCall
        (fun _ : ℕ => (.error "boom" : Except String ℕ)) 3 0 1).calls = [Ev.ticCall] ∧
     ((⟨none, some "q", some 2, true⟩ : Timer).tictocCall
        (fun _ : ℕ => (.error "boom" : Except String ℕ)) 3 0 1).timer.tstart = some 0 ∧
     (((⟨none, some "q", some 2, true⟩ : Timer).tictocCall
        (fun _ : ℕ => (.error "boom" : Except String ℕ)) 3 0 1).timer.tic 2).2 =
       .error (.runtimeError
         ("Timer " ++ pyStrOpt (some "q") ++ " is still in tic, toc first before tic-ing again."))) :=
  ⟨rfl, rfl, C10_wrap_exception_skips_stop ℕ ℕ ⟨none, some "q", some 2, true⟩
    (fun _ : ℕ => (.error "boom" : Except String ℕ)) 3 "boom" 0 1 2 rfl rfl⟩
